import Mathlib

/-!
# Verification of the nexus-ai-notes client core

Shallow embedding of the client-side session / data-synchronization layer of
the nexus-ai-notes repository: the auth session store (`AuthContext`), the
HTTP request wrapper (`apiRequest`), the dashboard document filter
(`filterDocuments`), the search page's recent-search handling
(`handleSearch`), the Q&A transcript operation (`handleAskQuestion`), and the
document edit flow (`handleSubmit`, `handleAddTag`).

JavaScript values that flow through `JSON.parse` / `JSON.stringify` and
truthiness tests are modelled by a small `Json` inductive with a `truthy`
function mirroring JavaScript boolean coercion.  Network effects are modelled
by passing the outcome of the HTTP request as an explicit argument; browser
`localStorage` is modelled as explicit record fields holding `Option String`
(`none` = key absent).
-/

/-- Model of a JavaScript JSON value (the result of `JSON.parse` or the
payload of `JSON.stringify`).  Numbers are modelled as integers, which is
enough for every value the verified code paths touch. -/
inductive Json where
  | null : Json
  | bool : Bool → Json
  | num : Int → Json
  | str : String → Json
  | arr : List Json → Json
  | obj : List (String × Json) → Json
deriving Repr

/-- JavaScript truthiness (`!!v`) of a JSON value: `null`, `false`, `0` and
`""` are falsy; every object and array is truthy. -/
def Json.truthy : Json → Bool
  | .null => false
  | .bool b => b
  | .num n => n != 0
  | .str s => s != ""
  | .arr _ => true
  | .obj _ => true

/-- Model of `JSON.stringify` (escaping inside strings is not modelled; no
verified property depends on it). -/
def Json.stringify : Json → String
  | .null => "null"
  | .bool true => "true"
  | .bool false => "false"
  | .num n => toString n
  | .str s => "\"" ++ s ++ "\""
  | .arr xs => "[" ++ String.intercalate "," (xs.attach.map (fun x => Json.stringify x.1)) ++ "]"
  | .obj fs => "\x7b" ++ String.intercalate ","
      (fs.attach.map (fun f => "\"" ++ f.1.1 ++ "\":" ++ Json.stringify f.1.2)) ++ "\x7d"
decreasing_by
  · have h := List.sizeOf_lt_of_mem x.2
    simp only [Json.arr.sizeOf_spec]
    omega
  · obtain ⟨⟨a, b⟩, hf⟩ := f
    have h := List.sizeOf_lt_of_mem hf
    simp only [Prod.mk.sizeOf_spec] at h
    simp only [Json.obj.sizeOf_spec]
    omega

/-! ## Dashboard document model and client-side filter (`Dashboard.filterDocuments`) -/

/-- A document as held in the dashboard's client-side cache
(interface `Document` in the dashboard page). Fields not consulted by the
filter (`_id`, `createdBy`, timestamps) are carried as plain strings. -/
structure Document where
  _id : String
  title : String
  content : String
  tags : List String
  summary : Option String
  createdByEmail : String
  createdByRole : String
  createdAt : String
  updatedAt : String
deriving Repr, DecidableEq

/-- Model of JavaScript `s.toLowerCase()`: lower-case every character. -/
def toLowerCase (s : String) : String := ⟨s.data.map Char.toLower⟩

/-- Model of JavaScript `s.trim()`: drop whitespace from both ends. -/
def trimStr (s : String) : String :=
  ⟨((s.data.dropWhile Char.isWhitespace).reverse.dropWhile Char.isWhitespace).reverse⟩

/-- Model of `hay.toLowerCase().includes(q.toLowerCase())`: case-insensitive
substring test. -/
def containsCI (hay q : String) : Bool :=
  decide ((toLowerCase q).data <:+: (toLowerCase hay).data)

/-- The text-match predicate used by `filterDocuments` on the dashboard:
`doc.title.toLowerCase().includes(q) || doc.content.toLowerCase().includes(q)
|| (doc.summary && doc.summary.toLowerCase().includes(q))`.  The `doc.summary
&&` guard is JavaScript truthiness: an absent or empty summary short-circuits
to falsy. -/
def docTextMatch (doc : Document) (searchQuery : String) : Bool :=
  containsCI doc.title searchQuery ||
  containsCI doc.content searchQuery ||
  (match doc.summary with
   | some s => s != "" && containsCI s searchQuery
   | none => false)

/-- `Dashboard.filterDocuments`: starts from the full cached list, filters by
the search query when it is non-empty (JS truthiness of the string), then by
the selected tags when at least one is selected
(`selectedTags.every(tag => doc.tags.includes(tag))`). -/
def filterDocuments (documents : List Document) (searchQuery : String)
    (selectedTags : List String) : List Document :=
  let filtered := documents
  let filtered := if searchQuery != "" then
      filtered.filter (fun doc => docTextMatch doc searchQuery)
    else filtered
  let filtered := if selectedTags.length > 0 then
      filtered.filter (fun doc => selectedTags.all (fun tag => doc.tags.contains tag))
    else filtered
  filtered

/-- The filter predicate as the specification words it: the document's title,
content, or summary (when present) contains the query as a case-insensitive
substring, AND the document's tag list contains every selected tag. -/
def specDocMatches (doc : Document) (searchQuery : String)
    (selectedTags : List String) : Bool :=
  (containsCI doc.title searchQuery ||
   containsCI doc.content searchQuery ||
   (match doc.summary with
    | some s => containsCI s searchQuery
    | none => false)) &&
  selectedTags.all (fun tag => doc.tags.contains tag)

/-! ## Auth session store (`AuthContext` / `AuthProvider`) -/

/-- The two durable keys the session store persists (`localStorage` keys
`token` and `user`); `none` models an absent key. -/
structure AuthStorage where
  token : Option String
  user : Option String
deriving Repr, DecidableEq

/-- The string the bootstrap effect hands to `JSON.parse`:
`localStorage.getItem('user') || '{}'` — both an absent key (`null`) and an
empty string are falsy, so both fall back to the literal `"{}"`. -/
def bootstrapUserRaw (st : AuthStorage) : String :=
  match st.user with
  | some s => if s = "" then "\x7b\x7d" else s
  | none => "\x7b\x7d"

/-- The bootstrap effect of `AuthProvider` (its mount-time `useEffect`),
parameterized by a model `parse` of `JSON.parse` (`none` = the parse throws).
Returns the storage afterwards and the in-memory `user` state; `Json.null`
models React's initial `null`.  If no token is stored (or it is the falsy
empty string) nothing happens; otherwise the persisted user JSON is parsed
and installed, and only a parse failure clears both keys.  The `loading`
flag (set to `false` unconditionally at the end) plays no role in any
verified property and is omitted. -/
def bootstrap (parse : String → Option Json) (st : AuthStorage) :
    AuthStorage × Json :=
  match st.token with
  | none => (st, Json.null)
  | some t =>
    if t = "" then (st, Json.null)
    else
      match parse (bootstrapUserRaw st) with
      | some userData => (st, userData)
      | none => (⟨none, none⟩, Json.null)

/-- `isAuthenticated` is the derived flag `!!user`. -/
def isAuthenticated (user : Json) : Bool := user.truthy

/-- The `{token, user}` payload of a successful login response. -/
structure LoginData where
  token : String
  user : Json
deriving Repr

/-- Outcome of the login HTTP exchange.  `failure` covers a non-ok response,
a network error, and an unparseable body — all are caught and reported the
same way. -/
inductive LoginOutcome where
  | ok (data : LoginData)
  | failure
deriving Repr

/-- `AuthProvider.login`: on success persists `data.token` and
`JSON.stringify(data.user)`, installs the user in memory and returns `true`;
on any failure returns `false` and leaves both storage and in-memory session
untouched (the function never throws — every failure path is caught). -/
def login (st : AuthStorage) (user : Json) (outcome : LoginOutcome) :
    Bool × AuthStorage × Json :=
  match outcome with
  | .ok data => (true, ⟨some data.token, some (Json.stringify data.user)⟩, data.user)
  | .failure => (false, st, user)

/-- `AuthProvider.register`: reports success or failure but never touches the
storage or the in-memory session. -/
def register (st : AuthStorage) (user : Json) (success : Bool) :
    Bool × AuthStorage × Json :=
  (success, st, user)

/-- `AuthProvider.logout`: removes both keys and clears the in-memory user,
unconditionally. -/
def logout (_st : AuthStorage) (_user : Json) : AuthStorage × Json :=
  (⟨none, none⟩, Json.null)

/-- The session-consistency relation the specification asserts: the in-memory
user is present (truthy, the code's own `!!user` notion) iff the persisted
token key is present iff `isAuthenticated` is `true`. -/
def sessionConsistent (st : AuthStorage) (user : Json) : Prop :=
  (user.truthy = true ↔ st.token ≠ none) ∧
  (st.token ≠ none ↔ isAuthenticated user = true)

/-- Concrete fragment of JavaScript `JSON.parse` used to instantiate the
`parse` parameter of `bootstrap` in closed statements.  It agrees with
`JSON.parse` on every string it is applied to in this file: the literal
`"{}"` parses to the empty object, `"null"` parses to JSON null, and the
malformed `"{oops"` (the only other string it ever receives here) is
rejected. -/
def jsonParseLit : String → Option Json := fun s =>
  if s = "\x7b\x7d" then some (Json.obj [])
  else if s = "null" then some Json.null
  else none

/-! ## HTTP request wrapper (`apiRequest`) -/

/-- The options record accepted by `apiRequest` (`RequestInit`): each field
may be absent.  The headers object is modelled as an association list in
which a later entry overrides an earlier one, matching object-spread
semantics. -/
structure RequestOptions where
  method : Option String
  body : Option String
  headers : Option (List (String × String))
deriving Repr

/-- Key lookup in a JS object modelled as a key-value list where later
entries override earlier ones. -/
def objGet (m : List (String × String)) (k : String) : Option String :=
  (m.reverse.find? (fun p => p.1 == k)).map (fun p => p.2)

/-- The `headers` value of the `config` object built by `apiRequest`.  The
inner object literal merges `Content-Type`, a conditional `Authorization`
bearer header (`...(token && {Authorization})`: absent and empty tokens are
falsy), and `...options.headers`; but the trailing `...options` spread then
replaces the whole `headers` property whenever `options` carries its own
`headers` key. -/
def configHeaders (token : Option String) (options : RequestOptions) :
    List (String × String) :=
  let merged :=
    [("Content-Type", "application/json")] ++
    (match token with
     | some t => if t = "" then [] else [("Authorization", "Bearer " ++ t)]
     | none => []) ++
    options.headers.getD []
  match options.headers with
  | some h => h
  | none => merged

/-- The parts of a `fetch` response `apiRequest` looks at. -/
structure HttpResponse where
  ok : Bool
  statusText : String
  body : Json
deriving Repr

/-- Result of `apiRequest` once the response is in: a non-2xx response throws
`Error('API Error: ' + response.statusText)`; otherwise the parsed JSON body
is returned. -/
def apiRequest (resp : HttpResponse) : Except String Json :=
  if resp.ok then Except.ok resp.body
  else Except.error ("API Error: " ++ resp.statusText)

/-! ## Search page: recent-search list (`Search.handleSearch`) -/

/-- The updated recent-search list computed on a successful search:
`[searchQuery, ...recentSearches.filter(s => s !== searchQuery)].slice(0, 5)`. -/
def updatedRecent (searchQuery : String) (recentSearches : List String) :
    List String :=
  (searchQuery :: recentSearches.filter (fun s => s != searchQuery)).take 5

/-- `handleSearch`'s effect on the recent-search state: a blank query returns
immediately; on request success the recent list is updated and written to the
`recentSearches` key (second component: the serialized value written this
call, `none` = no write); on request failure the list is left alone. -/
def handleSearch (searchQuery : String) (recentSearches : List String)
    (requestOk : Bool) : List String × Option String :=
  if trimStr searchQuery = "" then (recentSearches, none)
  else if requestOk then
    let updated := updatedRecent searchQuery recentSearches
    (updated, some (Json.stringify (Json.arr (updated.map Json.str))))
  else (recentSearches, none)

/-! ## Q&A transcript (`QA.handleAskQuestion`) -/

/-- Transcript entry kind (`type: 'question' | 'answer'`). -/
inductive MsgType where
  | question
  | answer
deriving Repr, DecidableEq

/-- A transcript entry (`QAMessage`).  Timestamps are modelled as the `Nat`
value of `Date.now()`. -/
structure QAMessage where
  id : String
  type : MsgType
  content : String
  timestamp : Nat
  sources : Option (List String)
deriving Repr, DecidableEq

/-- The Q&A component state touched by `handleAskQuestion`. -/
structure QAState where
  messages : List QAMessage
  currentQuestion : String
  isAsking : Bool
deriving Repr, DecidableEq

/-- The parsed body of a successful `/api/qa` response: `answer` and
`sources` may each be absent. -/
structure AskResponse where
  answer : Option String
  sources : Option (List String)
deriving Repr, DecidableEq

/-- Outcome of the ask HTTP exchange (`failure` = the awaited request threw). -/
inductive AskOutcome where
  | success (response : AskResponse)
  | failure
deriving Repr, DecidableEq

/-- The fixed fallback answer text used when `response.answer` is falsy. -/
def apologyFallback : String :=
  "I apologize, but I couldn't find relevant information to answer your question."

/-- The fixed error entry text appended when the request fails. -/
def askErrorContent : String :=
  "Sorry, I encountered an error while processing your question. Please try again."

/-- The question message `handleAskQuestion` appends optimistically:
`{id: Date.now().toString(), type: 'question', content: question,
timestamp: new Date()}` where `question = currentQuestion.trim()`. -/
def askQuestionMessage (st : QAState) (tQ : Nat) : QAMessage :=
  { id := toString tQ, type := .question, content := trimStr st.currentQuestion,
    timestamp := tQ, sources := none }

/-- The follow-up message `handleAskQuestion` appends when the request
resolves: on success `content = response.answer || apologyFallback` (JS
truthiness: an absent or empty answer falls back) and
`sources = response.sources || []`; on failure the fixed error message with
no sources field. -/
def askAnswerMessage (tA : Nat) (outcome : AskOutcome) : QAMessage :=
  match outcome with
  | .success response =>
    { id := toString (tA + 1), type := .answer,
      content := match response.answer with
        | some a => if a = "" then apologyFallback else a
        | none => apologyFallback,
      timestamp := tA,
      sources := some (response.sources.getD []) }
  | .failure =>
    { id := toString (tA + 1), type := .answer, content := askErrorContent,
      timestamp := tA, sources := none }

/-- `handleAskQuestion`: returns unchanged when the trimmed question is blank
or an ask is already in flight (`isAsking`); otherwise appends the question
message and, once the request resolves, appends the answer-or-error message
(the two `setMessages` functional updates compose to a two-element append),
finally clearing `isAsking`.  `tQ` and `tA` model `Date.now()` at
question-append time and at resolution time. -/
def handleAskQuestion (st : QAState) (tQ tA : Nat) (outcome : AskOutcome) :
    QAState :=
  if trimStr st.currentQuestion = "" ∨ st.isAsking = true then st
  else
    { messages := st.messages ++ [askQuestionMessage st tQ] ++ [askAnswerMessage tA outcome],
      currentQuestion := "", isAsking := false }

/-! ## Document edit/create flow (`AddEditDoc`) -/

/-- The editable state of the add/edit form. -/
structure EditState where
  title : String
  content : String
  tags : List String
deriving Repr, DecidableEq

/-- What `handleSubmit` does before anything asynchronous: either a
synchronous validation error or a create/update request with the given
payload. -/
inductive SubmitAction where
  | validationError
  | request (title content : String) (tags : List String)
deriving Repr, DecidableEq

/-- The synchronous prefix of `handleSubmit`: an empty trimmed title or
content reports a validation error and returns before any network call;
otherwise the request is issued with trimmed title/content and the current
tags.  Second component: the editable state after the call (`handleSubmit`
never writes `title`, `content` or `tags`). -/
def handleSubmit (st : EditState) : SubmitAction × EditState :=
  if trimStr st.title = "" ∨ trimStr st.content = "" then (.validationError, st)
  else (.request (trimStr st.title) (trimStr st.content) st.tags, st)

/-- `handleAddTag`: computes `newTag.trim().toLowerCase()` and appends it
exactly when it is non-empty and not already present; on append the input
field is cleared.  First component: updated tag list; second: updated
`newTag` input value. -/
def handleAddTag (tags : List String) (newTag : String) : List String × String :=
  let trimmedTag := toLowerCase (trimStr newTag)
  if trimmedTag != "" && !(tags.contains trimmedTag) then (tags ++ [trimmedTag], "")
  else (tags, newTag)

/-! ## Helper lemmas -/

/-- The empty string is a case-insensitive substring of every string. -/
theorem containsCI_empty_query (hay : String) : containsCI hay "" = true := by
  simp [containsCI, toLowerCase]

/-- A non-empty query is never a substring of the empty string. -/
theorem containsCI_empty_hay (q : String) (hq : q ≠ "") : containsCI "" q = false := by
  obtain ⟨data⟩ := q
  unfold containsCI toLowerCase
  simp only [decide_eq_false_iff_not]
  intro h
  have h0 : (⟨List.map Char.toLower data⟩ : String).data = [] := by
    simpa using List.infix_nil.mp h
  have hdata : data = [] := by simpa using h0
  subst hdata
  exact hq rfl

/-- For a non-empty query, the dashboard's text-match predicate coincides with
the spec's wording (the `doc.summary &&` truthiness guard is redundant: an
empty summary cannot contain a non-empty query). -/
theorem docTextMatch_eq (doc : Document) (q : String) (hq : q ≠ "") :
    docTextMatch doc q =
      (containsCI doc.title q || containsCI doc.content q ||
       (match doc.summary with
        | some s => containsCI s q
        | none => false)) := by
  unfold docTextMatch
  cases doc.summary with
  | none => rfl
  | some s =>
    by_cases hs : s = ""
    · subst hs
      simp [containsCI_empty_hay q hq]
    · have hb : (s != "") = true := by simp [hs]
      simp only [hb, Bool.true_and]

/-! ## C4: dashboard filter -/

/-- C4: for every cached document list, query string and selected-tag list,
`filterDocuments` returns exactly the documents whose title, content, or
summary (when present) contains the query as a case-insensitive substring AND
whose tag list contains every selected tag, preserving the cache's original
order; with empty query and empty tag selection it returns the full cache
unchanged. -/
theorem filterDocuments_matches_spec (documents : List Document)
    (searchQuery : String) (selectedTags : List String) :
    filterDocuments documents searchQuery selectedTags =
      documents.filter (fun doc => specDocMatches doc searchQuery selectedTags) ∧
    filterDocuments documents "" [] = documents := by
  have hid : filterDocuments documents "" [] = documents := by
    simp [filterDocuments]
  refine ⟨?_, hid⟩
  by_cases hq : searchQuery = "" <;> by_cases ht : selectedTags = []
  · subst hq; subst ht
    rw [hid]
    symm
    rw [List.filter_eq_self]
    intro d _
    simp [specDocMatches, containsCI_empty_query]
  · subst hq
    have htlen : 0 < selectedTags.length := List.length_pos.mpr ht
    simp only [filterDocuments, bne_self_eq_false, Bool.false_eq_true, if_false, gt_iff_lt,
      htlen, if_true]
    apply List.filter_congr
    intro d _
    simp [specDocMatches, containsCI_empty_query]
  · subst ht
    have hqb : (searchQuery != "") = true := by simpa using hq
    simp only [filterDocuments, hqb, if_true, List.length_nil, gt_iff_lt, Nat.lt_irrefl,
      if_false]
    apply List.filter_congr
    intro d _
    rw [docTextMatch_eq d _ hq]
    simp [specDocMatches]
  · have hqb : (searchQuery != "") = true := by simpa using hq
    have htlen : 0 < selectedTags.length := List.length_pos.mpr ht
    simp only [filterDocuments, hqb, if_true, gt_iff_lt, htlen, List.filter_filter]
    apply List.filter_congr
    intro d _
    rw [docTextMatch_eq d _ hq]
    simp [specDocMatches, Bool.and_comm]

/-! ## C9: tag add -/

/-- C9: `handleAddTag` appends the trimmed-lowercased input exactly when it is
non-empty and not already present in the tag list; an empty input or one whose
trimmed-lowercased form is already present leaves the tag list (and the input
field) unchanged — duplicate add is idempotent. -/
theorem handleAddTag_append_iff (tags : List String) (newTag : String) :
    (toLowerCase (trimStr newTag) ≠ "" ∧ toLowerCase (trimStr newTag) ∉ tags →
      handleAddTag tags newTag = (tags ++ [toLowerCase (trimStr newTag)], "")) ∧
    (toLowerCase (trimStr newTag) = "" ∨ toLowerCase (trimStr newTag) ∈ tags →
      handleAddTag tags newTag = (tags, newTag)) := by
  constructor
  · rintro ⟨h1, h2⟩
    simp [handleAddTag, h1, h2]
  · rintro (h | h)
    · simp [handleAddTag, h]
    · simp [handleAddTag, h]

/-- Witness for C9 at concrete inputs: `" Security "` is appended lowercased,
`" AUTH "` (already present as `"auth"`) leaves the list unchanged. -/
theorem handleAddTag_append_iff_witness :
    handleAddTag ["auth"] " Security " = (["auth", "security"], "") ∧
    handleAddTag ["auth"] " AUTH " = (["auth"], " AUTH ") := by
  constructor
  · exact (handleAddTag_append_iff ["auth"] " Security ").1 (by decide)
  · exact (handleAddTag_append_iff ["auth"] " AUTH ").2 (Or.inr (by decide))

/-! ## C8: submit validation -/

/-- C8: submitting the edit/create form with an empty trimmed title or empty
trimmed content reports a validation error synchronously, performs no network
call (no `request` action is produced), and leaves the editable state
unchanged. -/
theorem handleSubmit_validation (st : EditState)
    (h : trimStr st.title = "" ∨ trimStr st.content = "") :
    handleSubmit st = (SubmitAction.validationError, st) := by
  unfold handleSubmit
  rw [if_pos h]

/-- Witness for C8: a whitespace-only title with non-empty content yields the
validation error and an untouched state. -/
theorem handleSubmit_validation_witness :
    handleSubmit ⟨"   ", "some content", ["t"]⟩ =
      (SubmitAction.validationError, ⟨"   ", "some content", ["t"]⟩) :=
  handleSubmit_validation ⟨"   ", "some content", ["t"]⟩ (Or.inl (by decide))

/-! ## C1 and C10: Q&A transcript -/

/-- C1: an ask invocation with a non-blank question on any transcript state
appends exactly one question entry followed by exactly one answer entry (the
backend answer on success, the fixed fallback error entry on failure), in
that order; an ask invoked while a previous one is still in flight
(`isAsking`) is rejected and appends nothing. -/
theorem handleAskQuestion_transcript (st : QAState) (tQ tA : Nat)
    (outcome : AskOutcome) (hq : trimStr st.currentQuestion ≠ "") :
    (st.isAsking = true → handleAskQuestion st tQ tA outcome = st) ∧
    (st.isAsking = false →
      (handleAskQuestion st tQ tA outcome).messages =
        st.messages ++ [askQuestionMessage st tQ, askAnswerMessage tA outcome]) ∧
    (askQuestionMessage st tQ).type = MsgType.question ∧
    (askQuestionMessage st tQ).content = trimStr st.currentQuestion ∧
    (askAnswerMessage tA outcome).type = MsgType.answer ∧
    (∀ r a, outcome = AskOutcome.success r → r.answer = some a → a ≠ "" →
      (askAnswerMessage tA outcome).content = a) ∧
    (askAnswerMessage tA AskOutcome.failure).content = askErrorContent := by
  refine ⟨?_, ?_, rfl, rfl, ?_, ?_, rfl⟩
  · intro ha
    unfold handleAskQuestion
    rw [if_pos (Or.inr ha)]
  · intro ha
    unfold handleAskQuestion
    rw [if_neg]
    · simp
    · rintro (h | h)
      · exact hq h
      · rw [ha] at h
        cases h
  · cases outcome <;> rfl
  · rintro r a rfl ha hne
    simp [askAnswerMessage, ha, hne]

/-- Witness for C1: on an empty transcript, asking `"What is X?"` with a
successful backend response appends exactly the question message and the
answer message, in order. -/
theorem handleAskQuestion_transcript_witness :
    (handleAskQuestion ⟨[], "What is X?", false⟩ 0 1
        (AskOutcome.success ⟨some "X is Y", some ["doc1"]⟩)).messages =
      [askQuestionMessage ⟨[], "What is X?", false⟩ 0,
       askAnswerMessage 1 (AskOutcome.success ⟨some "X is Y", some ["doc1"]⟩)] := by
  have h := ((handleAskQuestion_transcript ⟨[], "What is X?", false⟩ 0 1
      (AskOutcome.success ⟨some "X is Y", some ["doc1"]⟩) (by decide)).2.1) rfl
  simpa using h

/-- C10: on a successful ask, the appended answer entry is
`askAnswerMessage`; its text falls back to the fixed apology string when the
response's `answer` field is absent or empty, and its `sources` default to
the (present) empty list when the response's `sources` field is absent. -/
theorem askAnswer_defaults (st : QAState) (tQ tA : Nat) (response : AskResponse)
    (hq : trimStr st.currentQuestion ≠ "") (ha : st.isAsking = false) :
    (handleAskQuestion st tQ tA (AskOutcome.success response)).messages.getLast? =
      some (askAnswerMessage tA (AskOutcome.success response)) ∧
    (response.answer = none ∨ response.answer = some "" →
      (askAnswerMessage tA (AskOutcome.success response)).content = apologyFallback) ∧
    (response.sources = none →
      (askAnswerMessage tA (AskOutcome.success response)).sources = some []) := by
  refine ⟨?_, ?_, ?_⟩
  · unfold handleAskQuestion
    rw [if_neg]
    · simp
    · rintro (h | h)
      · exact hq h
      · rw [ha] at h
        cases h
  · rintro (h | h) <;> simp [askAnswerMessage, h]
  · intro h
    simp [askAnswerMessage, h]

/-- Witness for C10: a success response with both fields absent yields the
apology text and an explicit empty source list. -/
theorem askAnswer_defaults_witness :
    (handleAskQuestion ⟨[], "Q2?", false⟩ 2 3
        (AskOutcome.success ⟨none, none⟩)).messages.getLast? =
      some (askAnswerMessage 3 (AskOutcome.success ⟨none, none⟩)) ∧
    (askAnswerMessage 3 (AskOutcome.success ⟨none, none⟩)).content = apologyFallback ∧
    (askAnswerMessage 3 (AskOutcome.success ⟨none, none⟩)).sources = some [] := by
  have h := askAnswer_defaults ⟨[], "Q2?", false⟩ 2 3 ⟨none, none⟩ (by decide) rfl
  exact ⟨h.1, h.2.1 (Or.inl rfl), h.2.2 rfl⟩

/-! ## C6: recent-search list -/

/-- Filtering out an element that occurs (exactly once, by `Nodup`) shortens
the list by exactly one. -/
theorem length_filter_ne_of_nodup (l : List String) (q : String)
    (hnd : l.Nodup) (hq : q ∈ l) :
    (l.filter (fun s => s != q)).length = l.length - 1 := by
  induction l with
  | nil => cases hq
  | cons a l ih =>
    rw [List.nodup_cons] at hnd
    by_cases ha : a = q
    · subst ha
      have hfl : l.filter (fun s => s != a) = l := by
        rw [List.filter_eq_self]
        intro b hb
        simp only [bne_iff_ne, ne_eq]
        rintro rfl
        exact hnd.1 hb
      rw [List.filter_cons, if_neg (by simp)]
      simp [hfl]
    · have hq' : q ∈ l := by
        rcases List.mem_cons.mp hq with h | h
        · exact absurd h.symm ha
        · exact h
      have h1 : 0 < l.length := List.length_pos.mpr (fun h => by subst h; cases hq')
      have hih := ih hnd.2 hq'
      rw [List.filter_cons, if_pos (by simp [ha])]
      simp only [List.length_cons, hih]
      omega

/-- C6: a successful search with a non-blank query updates the recent-search
list to `updatedRecent`, which puts the query first, stays duplicate-free,
never exceeds 5 entries, does not grow when the query was already present
(move-to-front), and is written to durable storage in serialized form. -/
theorem recentSearches_invariant (searchQuery : String)
    (recentSearches : List String) (hq : trimStr searchQuery ≠ "")
    (hnd : recentSearches.Nodup) (hlen : recentSearches.length ≤ 5) :
    (handleSearch searchQuery recentSearches true).1 =
      updatedRecent searchQuery recentSearches ∧
    (updatedRecent searchQuery recentSearches).head? = some searchQuery ∧
    (updatedRecent searchQuery recentSearches).Nodup ∧
    (updatedRecent searchQuery recentSearches).length ≤ 5 ∧
    (searchQuery ∈ recentSearches →
      (updatedRecent searchQuery recentSearches).length =
        recentSearches.length) ∧
    (handleSearch searchQuery recentSearches true).2 =
      some (Json.stringify
        (Json.arr ((updatedRecent searchQuery recentSearches).map Json.str))) := by
  have hhs : handleSearch searchQuery recentSearches true =
      (updatedRecent searchQuery recentSearches,
       some (Json.stringify
         (Json.arr ((updatedRecent searchQuery recentSearches).map Json.str)))) := by
    unfold handleSearch
    rw [if_neg hq]
    rfl
  have hcons : (searchQuery ::
      recentSearches.filter (fun s => s != searchQuery)).Nodup := by
    rw [List.nodup_cons]
    refine ⟨?_, hnd.filter _⟩
    intro hmem
    have := (List.mem_filter.mp hmem).2
    simp at this
  refine ⟨by rw [hhs], ?_, ?_, ?_, ?_, by rw [hhs]⟩
  · rfl
  · exact List.Nodup.sublist (List.take_sublist _ _) hcons
  · unfold updatedRecent
    rw [List.length_take]
    exact Nat.min_le_left _ _
  · intro hmem
    unfold updatedRecent
    rw [List.length_take, List.length_cons,
      length_filter_ne_of_nodup _ _ hnd hmem]
    have h1 : 0 < recentSearches.length :=
      List.length_pos.mpr (fun h => by subst h; cases hmem)
    omega

/-- Witness for C6: re-searching `"beta"` in `["alpha","beta","gamma"]` moves
it to the front without growing the list. -/
theorem recentSearches_invariant_witness :
    (handleSearch "beta" ["alpha", "beta", "gamma"] true).1 =
      ["beta", "alpha", "gamma"] ∧
    (updatedRecent "beta" ["alpha", "beta", "gamma"]).length = 3 := by
  have h := recentSearches_invariant "beta" ["alpha", "beta", "gamma"]
    (by decide) (by decide) (by decide)
  refine ⟨?_, h.2.2.2.2.1 (by decide)⟩
  rw [h.1]
  decide

/-! ## C5: login contract -/

/-- C5: for every prior session state, `login` returns `true` exactly when
the HTTP exchange succeeds; on success it persists the token and the
serialized user and installs the user in memory; on any failure it returns
`false` (it never throws — the model is a total function) and leaves both
the persisted pair and the in-memory session untouched. -/
theorem login_contract (st : AuthStorage) (user : Json) :
    (∀ outcome, ((login st user outcome).1 = true ↔
      ∃ d, outcome = LoginOutcome.ok d)) ∧
    (∀ d, login st user (LoginOutcome.ok d) =
      (true, ⟨some d.token, some (Json.stringify d.user)⟩, d.user)) ∧
    login st user LoginOutcome.failure = (false, st, user) := by
  refine ⟨?_, fun d => rfl, rfl⟩
  intro outcome
  cases outcome with
  | ok d =>
    simp only [login, true_iff]
    exact ⟨d, rfl⟩
  | failure =>
    simp [login]

/-! ## C2: bootstrap storage clearing (corrected) -/

/-- C2 counterexample: at bootstrap with the token key missing and a valid
user key present, storage is left untouched — the user key is not removed,
contradicting the claim that both persisted keys end up removed in every
missing-or-corrupt case. -/
theorem bootstrap_missing_token_counterexample :
    (bootstrap jsonParseLit ⟨none, some "\x7b\"id\":\"1\"\x7d"⟩).1.user ≠ none := by
  decide

/-- C2 amended: at bootstrap, (i) a missing token key leaves storage
untouched and the session unauthenticated; (ii) a present non-empty token
with a missing user key parses the `'{}'` fallback, so nothing is removed
and the session ends authenticated with an empty user object; (iii) only a
present non-empty token with a non-empty user key that fails to parse clears
both keys and leaves the session unauthenticated. -/
theorem bootstrap_amended (parse : String → Option Json) (st : AuthStorage)
    (hparse : parse "\x7b\x7d" = some (Json.obj [])) :
    (st.token = none → bootstrap parse st = (st, Json.null)) ∧
    (∀ t, st.token = some t → t ≠ "" → st.user = none →
      bootstrap parse st = (st, Json.obj []) ∧
      isAuthenticated (bootstrap parse st).2 = true) ∧
    (∀ t u, st.token = some t → t ≠ "" → st.user = some u → u ≠ "" →
      parse u = none →
      bootstrap parse st = (⟨none, none⟩, Json.null) ∧
      isAuthenticated (bootstrap parse st).2 = false) := by
  obtain ⟨tok, usr⟩ := st
  refine ⟨?_, ?_, ?_⟩
  · intro h
    subst h
    rfl
  · rintro t ht hne hu
    subst ht
    subst hu
    have hb : bootstrap parse ⟨some t, none⟩ = (⟨some t, none⟩, Json.obj []) := by
      simp [bootstrap, bootstrapUserRaw, hne, hparse]
    rw [hb]
    exact ⟨rfl, rfl⟩
  · rintro t u ht hne hu hune hp
    subst ht
    subst hu
    have hraw : bootstrapUserRaw ⟨some t, some u⟩ = u := by
      simp [bootstrapUserRaw, hune]
    have hb : bootstrap parse ⟨some t, some u⟩ = (⟨none, none⟩, Json.null) := by
      simp [bootstrap, hraw, hne, hp]
    rw [hb]
    exact ⟨rfl, rfl⟩

/-- Witness for the amended C2, instantiating `parse` with the concrete
`jsonParseLit` fragment of `JSON.parse`: a stored token with no user key
bootstraps to an authenticated empty-object session with storage untouched,
while a stored token with the malformed user string `"{oops"` clears both
keys. -/
theorem bootstrap_amended_witness :
    bootstrap jsonParseLit ⟨some "tok", none⟩ =
      (⟨some "tok", none⟩, Json.obj []) ∧
    bootstrap jsonParseLit ⟨some "tok", some "\x7boops"⟩ =
      (⟨none, none⟩, Json.null) := by
  have h1 := (bootstrap_amended jsonParseLit ⟨some "tok", none⟩ rfl).2.1
    "tok" rfl (by decide) rfl
  have h2 := (bootstrap_amended jsonParseLit ⟨some "tok", some "\x7boops"⟩
    rfl).2.2 "tok" "\x7boops" rfl (by decide) rfl (by decide) rfl
  exact ⟨h1.1, h2.1⟩

/-! ## C3: session consistency invariant (corrected) -/

/-- C3 counterexample: bootstrapping with a stored token and a user key
holding the string `"null"` (valid JSON, parses to `null`) keeps the token
persisted yet leaves the session unauthenticated with no in-memory user —
the claimed three-way equivalence fails. -/
theorem sessionConsistent_counterexample :
    (bootstrap jsonParseLit ⟨some "tok", some "null"⟩).1.token = some "tok" ∧
    isAuthenticated (bootstrap jsonParseLit ⟨some "tok", some "null"⟩).2 = false := by
  exact ⟨rfl, rfl⟩

/-- C3 amended: the three-way equivalence (in-memory user present ⇔ persisted
token present ⇔ `isAuthenticated`) holds after logout; after a successful
login whose response user is truthy (the API contract's user object); is
preserved by failed login and by register (which change nothing); and holds
after bootstrap provided the stored token is not the falsy empty string and
the stored user key never parses to a falsy JSON value.  (The counterexample
shows the equivalence genuinely fails at bootstrap when the user key parses
to JSON `null`.) -/
theorem sessionConsistent_amended :
    (∀ st user, sessionConsistent (logout st user).1 (logout st user).2) ∧
    (∀ st user d, Json.truthy d.user = true →
      sessionConsistent (login st user (LoginOutcome.ok d)).2.1
        (login st user (LoginOutcome.ok d)).2.2) ∧
    (∀ st user, (login st user LoginOutcome.failure).2 = (st, user)) ∧
    (∀ st user b, (register st user b).2 = (st, user)) ∧
    (∀ parse st, parse "\x7b\x7d" = some (Json.obj []) →
      st.token ≠ some "" →
      (∀ u v, st.user = some u → parse u = some v → v.truthy = true) →
      sessionConsistent (bootstrap parse st).1 (bootstrap parse st).2) := by
  refine ⟨?_, ?_, fun st user => rfl, fun st user b => rfl, ?_⟩
  · intro st user
    exact ⟨by simp [logout, Json.truthy], by simp [logout, isAuthenticated, Json.truthy]⟩
  · intro st user d hd
    exact ⟨by simp [login, hd], by simp [login, isAuthenticated, hd]⟩
  · intro parse st hparse htok hall
    obtain ⟨tok, usr⟩ := st
    cases tok with
    | none =>
      simp [bootstrap, sessionConsistent, isAuthenticated, Json.truthy]
    | some t =>
      have ht : t ≠ "" := by
        intro h
        subst h
        exact htok rfl
      cases usr with
      | none =>
        have hb : bootstrap parse ⟨some t, none⟩ = (⟨some t, none⟩, Json.obj []) := by
          simp [bootstrap, bootstrapUserRaw, ht, hparse]
        rw [hb]
        simp [sessionConsistent, isAuthenticated, Json.truthy]
      | some u =>
        by_cases hu : u = ""
        · subst hu
          have hb : bootstrap parse ⟨some t, some ""⟩ =
              (⟨some t, some ""⟩, Json.obj []) := by
            simp [bootstrap, bootstrapUserRaw, ht, hparse]
          rw [hb]
          simp [sessionConsistent, isAuthenticated, Json.truthy]
        · have hraw : bootstrapUserRaw ⟨some t, some u⟩ = u := by
            simp [bootstrapUserRaw, hu]
          cases hp : parse u with
          | none =>
            have hb : bootstrap parse ⟨some t, some u⟩ = (⟨none, none⟩, Json.null) := by
              simp [bootstrap, hraw, ht, hp]
            rw [hb]
            simp [sessionConsistent, isAuthenticated, Json.truthy]
          | some v =>
            have hv := hall u v rfl hp
            have hb : bootstrap parse ⟨some t, some u⟩ = (⟨some t, some u⟩, v) := by
              simp [bootstrap, hraw, ht, hp]
            rw [hb]
            simp [sessionConsistent, isAuthenticated, hv]

/-- Witness for the amended C3: consistency holds concretely after a
bootstrap with a stored token and no stored user (via `jsonParseLit`), and
after a successful login with a truthy user object. -/
theorem sessionConsistent_amended_witness :
    sessionConsistent (bootstrap jsonParseLit ⟨some "tok", none⟩).1
      (bootstrap jsonParseLit ⟨some "tok", none⟩).2 ∧
    sessionConsistent
      (login ⟨none, none⟩ Json.null
        (LoginOutcome.ok ⟨"tk", Json.obj [("id", Json.str "1")]⟩)).2.1
      (login ⟨none, none⟩ Json.null
        (LoginOutcome.ok ⟨"tk", Json.obj [("id", Json.str "1")]⟩)).2.2 := by
  constructor
  · exact sessionConsistent_amended.2.2.2.2 jsonParseLit ⟨some "tok", none⟩ rfl
      (by decide) (by intro u v h1 _h2; simp at h1)
  · exact sessionConsistent_amended.2.1 ⟨none, none⟩ Json.null
      ⟨"tk", Json.obj [("id", Json.str "1")]⟩ rfl

/-! ## C7: request wrapper headers (code bug) -/

/-- C7 evaluation: whenever the caller passes its own `headers` object, the
trailing `...options` spread replaces the merged header object wholesale, so
neither `Content-Type` nor `Authorization` is sent — contradicting the
always-inject contract; with no caller headers the defaults are injected as
specified, and a non-2xx response fails with the status text. -/
theorem apiRequest_headers_eval :
    configHeaders (some "tok") ⟨none, none, some [("X-Custom", "1")]⟩ =
      [("X-Custom", "1")] ∧
    objGet (configHeaders (some "tok") ⟨none, none, some [("X-Custom", "1")]⟩)
      "Content-Type" = none ∧
    objGet (configHeaders (some "tok") ⟨none, none, some [("X-Custom", "1")]⟩)
      "Authorization" = none ∧
    configHeaders (some "tok") ⟨none, none, none⟩ =
      [("Content-Type", "application/json"), ("Authorization", "Bearer tok")] ∧
    configHeaders none ⟨none, none, none⟩ =
      [("Content-Type", "application/json")] ∧
    apiRequest ⟨false, "Unauthorized", Json.null⟩ =
      Except.error "API Error: Unauthorized" := by
  exact ⟨rfl, rfl, rfl, rfl, rfl, rfl⟩
